import Mathlib

/-!
Verification development for the operator-parameter catalog, operator
lifecycle, and cost-measurement contract of the FlexFlow operator core.

The embedding follows the two headers of the repository:
* `src/include/flexflow/operator_params.h` — the `OperatorParameters`
  variant (a closed tagged union over per-operator params records);
* `src/include/ops/reshape.h` — the `Reshape` operator class, its
  lifecycle methods, `print_layer`, and `measure_operator_cost`.

The bodies of the lifecycle methods, the per-kind params records
(`conv_2d.h`, `linear.h`, `concat.h`, `element_binary.h`) and the
simulator live outside the provided sources; those parts are modelled
from the specification, and each such definition says so in its doc
comment.
-/

namespace FlexFlow

/-- A tensor shape: the list of dimension sizes, outermost first. -/
abbrev Shape := List Nat

/-- Total number of elements of a shape (product of the dimensions). -/
def numElements (s : Shape) : Nat := s.foldl (· * ·) 1

/-- Modelled from the spec: `Conv2DParams` (header `flexflow/ops/conv_2d.h`
is included by `operator_params.h` but not among the provided sources).
Pure data describing a 2-D convolution: output channels, kernel size,
stride, padding. -/
structure Conv2DParams where
  out_channels : Nat
  kernel_h : Nat
  kernel_w : Nat
  stride_h : Nat
  stride_w : Nat
  padding_h : Nat
  padding_w : Nat
deriving DecidableEq, Repr

/-- Modelled from the spec: `LinearParams` (header `flexflow/ops/linear.h`
not among the provided sources): output channel count and activation flag. -/
structure LinearParams where
  out_channels : Nat
  use_activation : Bool
deriving DecidableEq, Repr

/-- Modelled from the spec: `ConcatParams` (header `flexflow/ops/concat.h`
not among the provided sources): the concatenation axis. -/
structure ConcatParams where
  axis : Nat
deriving DecidableEq, Repr

/-- Modelled from the spec: the elementwise binary operation kind
(`flexflow/ops/element_binary.h` not among the provided sources). -/
inductive ElementBinaryOpType where
  | add
  | sub
  | mul
  | div
deriving DecidableEq, Repr

/-- Modelled from the spec: `ElementBinaryParams` (header
`flexflow/ops/element_binary.h` not among the provided sources). -/
structure ElementBinaryParams where
  op_type : ElementBinaryOpType
deriving DecidableEq, Repr

/-- Modelled from the spec: the reshape configuration. The `Reshape`
operator of `src/include/ops/reshape.h` is constructed from a target
shape vector (`const std::vector<int>& shape`); no `ReshapeParams`
record appears in the `OperatorParameters` catalog. -/
structure ReshapeParams where
  shape : List Nat
deriving DecidableEq, Repr

/-- The `OperatorParameters` variant of
`src/include/flexflow/operator_params.h`, lines 14–19:
`mp::variant<Conv2DParams, LinearParams, ConcatParams, ElementBinaryParams>`.
Exactly these four alternatives, in source order; `ReshapeParams` is not
among them. -/
inductive OperatorParameters where
  | conv2d (p : Conv2DParams)
  | linear (p : LinearParams)
  | concat (p : ConcatParams)
  | elementBinary (p : ElementBinaryParams)
deriving DecidableEq, Repr

/-- The operator kinds the repository models: the four catalog kinds plus
`reshape`, since `src/include/ops/reshape.h` defines a `Reshape` operator
class. -/
inductive OperatorKind where
  | conv2d
  | linear
  | concat
  | elementBinary
  | reshape
deriving DecidableEq, Repr

/-- The kinds that have an alternative in the `OperatorParameters` variant,
in the order they appear in `operator_params.h`. -/
def catalogKinds : List OperatorKind :=
  [OperatorKind.conv2d, OperatorKind.linear, OperatorKind.concat,
   OperatorKind.elementBinary]

/-- The operator kinds the system models: the catalog kinds together with
`reshape` (the `Reshape` class of `src/include/ops/reshape.h`). -/
def modeledOperatorKinds : List OperatorKind :=
  [OperatorKind.conv2d, OperatorKind.linear, OperatorKind.concat,
   OperatorKind.elementBinary, OperatorKind.reshape]

/-- The kind tag held by an `OperatorParameters` value. -/
def OperatorParameters.kind : OperatorParameters → OperatorKind
  | .conv2d _ => OperatorKind.conv2d
  | .linear _ => OperatorKind.linear
  | .concat _ => OperatorKind.concat
  | .elementBinary _ => OperatorKind.elementBinary

/-- Modelled from the spec: `Conv2DParams.is_valid` (§4.1; the record's
implementation is not among the provided sources). A single rank-4 input
`[n, c, h, w]`; strides and kernel positive; the padded spatial extent must
cover the kernel. -/
def Conv2DParams.is_valid (p : Conv2DParams) (inputs : List Shape) : Bool :=
  match inputs with
  | [[_, _, h, w]] =>
      decide (0 < p.stride_h) && decide (0 < p.stride_w) &&
      decide (0 < p.kernel_h) && decide (0 < p.kernel_w) &&
      decide (p.kernel_h ≤ h + 2 * p.padding_h) &&
      decide (p.kernel_w ≤ w + 2 * p.padding_w)
  | _ => false

/-- Modelled from the spec: `Conv2DParams.output_shape` (§4.1): the usual
convolution output extent per spatial dimension. -/
def Conv2DParams.output_shape (p : Conv2DParams) (inputs : List Shape) : Shape :=
  match inputs with
  | [[n, _, h, w]] =>
      [n, p.out_channels,
       (h + 2 * p.padding_h - p.kernel_h) / p.stride_h + 1,
       (w + 2 * p.padding_w - p.kernel_w) / p.stride_w + 1]
  | _ => []

/-- Modelled from the spec: `LinearParams.is_valid` (§4.1): a single
nonempty-rank input. -/
def LinearParams.is_valid (_p : LinearParams) (inputs : List Shape) : Bool :=
  match inputs with
  | [s] => !s.isEmpty
  | _ => false

/-- Modelled from the spec: `LinearParams.output_shape` (§4.1): the input
shape with its innermost dimension replaced by `out_channels`. -/
def LinearParams.output_shape (p : LinearParams) (inputs : List Shape) : Shape :=
  match inputs with
  | [s] => s.dropLast ++ [p.out_channels]
  | _ => []

/-- Modelled from the spec: `ConcatParams.is_valid` (§4.1): at least one
input; the concat axis in range; every input of the same rank and equal to
the first on every non-concat axis. -/
def ConcatParams.is_valid (p : ConcatParams) (inputs : List Shape) : Bool :=
  match inputs with
  | [] => false
  | s :: rest =>
      decide (p.axis < s.length) &&
      rest.all (fun t =>
        t.length == s.length &&
        (List.range s.length).all (fun i =>
          i == p.axis || t.getD i 0 == s.getD i 0))

/-- Modelled from the spec: `ConcatParams.output_shape` (§4.1): the first
input's shape with the concat-axis dimension replaced by the sum of that
dimension over all inputs. -/
def ConcatParams.output_shape (p : ConcatParams) (inputs : List Shape) : Shape :=
  match inputs with
  | [] => []
  | s :: _ =>
      (List.range s.length).map (fun i =>
        if i == p.axis then (inputs.map (fun t => t.getD p.axis 0)).foldl (· + ·) 0
        else s.getD i 0)

/-- Modelled from the spec: `ElementBinaryParams.is_valid` (§4.1): exactly
two inputs of identical shape. -/
def ElementBinaryParams.is_valid (_p : ElementBinaryParams)
    (inputs : List Shape) : Bool :=
  match inputs with
  | [a, b] => decide (a = b)
  | _ => false

/-- Modelled from the spec: `ElementBinaryParams.output_shape` (§4.1): the
common input shape. -/
def ElementBinaryParams.output_shape (_p : ElementBinaryParams)
    (inputs : List Shape) : Shape :=
  match inputs with
  | [a, _] => a
  | _ => []

/-- Modelled from the spec: reshape validity (§4.1, "reshape element-count
mismatch" fails): the input's element count must equal the target shape's. -/
def ReshapeParams.is_valid (p : ReshapeParams) (input : Shape) : Bool :=
  numElements input == numElements p.shape

/-- Modelled from the spec: reshape output shape is the configured target
shape. -/
def ReshapeParams.output_shape (p : ReshapeParams) (_input : Shape) : Shape :=
  p.shape

/-- Dispatch of `is_valid` over the catalog variants. -/
def OperatorParameters.is_valid : OperatorParameters → List Shape → Bool
  | .conv2d p, xs => p.is_valid xs
  | .linear p, xs => p.is_valid xs
  | .concat p, xs => p.is_valid xs
  | .elementBinary p, xs => p.is_valid xs

/-- Dispatch of `output_shape` over the catalog variants. -/
def OperatorParameters.output_shape : OperatorParameters → List Shape → Shape
  | .conv2d p, xs => p.output_shape xs
  | .linear p, xs => p.output_shape xs
  | .concat p, xs => p.output_shape xs
  | .elementBinary p, xs => p.output_shape xs

/-- An operator's configuration: either a catalog params record, or the
target shape carried directly by the `Reshape` operator of
`src/include/ops/reshape.h` (which has no catalog record). -/
inductive OperatorConfig where
  | params (p : OperatorParameters)
  | reshape (p : ReshapeParams)
deriving DecidableEq, Repr

/-- Validity of an operator configuration against its input shapes. -/
def OperatorConfig.is_valid : OperatorConfig → List Shape → Bool
  | .params p, xs => p.is_valid xs
  | .reshape p, xs =>
      match xs with
      | [s] => p.is_valid s
      | _ => false

/-- Output shape of an operator configuration for given input shapes. -/
def OperatorConfig.output_shape : OperatorConfig → List Shape → Shape
  | .params p, xs => p.output_shape xs
  | .reshape p, xs =>
      match xs with
      | [s] => p.output_shape s
      | _ => []

/-- Modelled from the spec: the error taxonomy of §7 (`ConfigurationError`,
`AlreadyInitializedError`, `MeasurementError`). In the C++ interface the
measurement failure is realized as a `false` return of
`measure_operator_cost` (see `src/include/ops/reshape.h`, lines 34–36). -/
inductive FFError where
  | configurationError
  | alreadyInitializedError
  | measurementError
deriving DecidableEq, Repr

/-- Modelled from the spec: the lifecycle states of §4.2,
`Constructed → Initialized → Ready`. A successful `initialize` moves the
operator to its ready state (`Initialized` and `Ready` coincide here:
nothing in the spec transitions between them), and destruction is final. -/
inductive LifecycleState where
  | constructed
  | ready
  | destroyed
deriving DecidableEq, Repr

/-- Modelled from the spec: `OpMeta` (§3): per-partition runtime state
allocated by `initialize` — a partition index and its device-buffer size. -/
structure OpMeta where
  partitionIndex : Nat
  bufferBytes : Nat
deriving DecidableEq, Repr

/-- Modelled from the spec: an operator instance (§3): an identity, its
owned configuration, references to its input shapes, its lifecycle state
and the `OpMeta` it owns (one per partition once initialized). -/
structure OpState where
  opId : Nat
  config : OperatorConfig
  inputShapes : List Shape
  lifecycle : LifecycleState
  opMetas : List OpMeta
deriving DecidableEq, Repr

/-- The shape an operator's partitioning must divide: its output shape. -/
def requiredShape (op : OpState) : Shape :=
  op.config.output_shape op.inputShapes

/-- Bytes per float element, the element size of the `float*` kernels of
`src/include/ops/reshape.h`. -/
def elementSize : Nat := 4

/-- Modelled from the spec: the per-partition device buffers allocated by
`initialize` (§4.2: "allocates one OpMeta per partition (device buffers
sized from output_shape)"). -/
def allocOpMetas (op : OpState) (partitions : Nat) : List OpMeta :=
  (List.range partitions).map (fun i =>
    { partitionIndex := i
      bufferBytes := numElements (requiredShape op) / partitions * elementSize })

/-- Modelled from the spec: `initialize` (§4.2). Declared in the sources as
`Reshape::init` (`src/include/ops/reshape.h`, line 12); its body is not
among the provided sources. Fails fast with `AlreadyInitializedError` on a
second call without teardown, fails with `ConfigurationError` when
`is_valid` rejects the params/shape combination, and otherwise allocates
one `OpMeta` per partition and moves the operator to its ready state. The
returned pair is (error if any, resulting operator state); on an error the
operator state is returned unchanged. -/
def initOp (op : OpState) (partitions : Nat) : Option FFError × OpState :=
  if op.lifecycle ≠ LifecycleState.constructed then
    (some FFError.alreadyInitializedError, op)
  else if op.config.is_valid op.inputShapes then
    (none, { op with lifecycle := LifecycleState.ready
                     opMetas := allocOpMetas op partitions })
  else
    (some FFError.configurationError, op)

/-- Modelled from the spec: the lifecycle events of §4.2 — `init`,
`forward`, `backward` (declared in `src/include/ops/reshape.h`, lines
12–14) and destruction with the graph. -/
inductive Event where
  | init
  | forward
  | backward
  | destroy
deriving DecidableEq, Repr

/-- Modelled from the spec: the lifecycle transition relation of §4.2.
`init` is enabled only on a constructed operator; `forward` and `backward`
repeat on a ready operator; destruction is enabled while alive and nothing
is enabled afterwards. -/
def lifeStep : LifecycleState → Event → Option LifecycleState
  | LifecycleState.constructed, Event.init => some LifecycleState.ready
  | LifecycleState.ready, Event.forward => some LifecycleState.ready
  | LifecycleState.ready, Event.backward => some LifecycleState.ready
  | LifecycleState.constructed, Event.destroy => some LifecycleState.destroyed
  | LifecycleState.ready, Event.destroy => some LifecycleState.destroyed
  | _, _ => none

/-- Running a history of lifecycle events from a state: `some s` when every
event was enabled in turn, `none` when the history is not accepted. -/
def accepts : LifecycleState → List Event → Option LifecycleState
  | s, [] => some s
  | s, e :: t =>
      match lifeStep s e with
      | some s' => accepts s' t
      | none => none

/-- Modelled from the spec: `ParallelConfig` (§3): dimension-wise degrees
of parallelism and a device assignment, a value type compared for equality
and usable as part of a cache key. -/
structure ParallelConfig where
  degrees : List Nat
  deviceIds : List Nat
deriving DecidableEq, Repr

/-- Total partition count of a `ParallelConfig`: the product of its
dimension-wise degrees. -/
def partitionCount (pc : ParallelConfig) : Nat :=
  pc.degrees.foldl (· * ·) 1

/-- `CostMetrics` (§3, §6): forward time, backward time, memory footprint.
Its fields are abstract cost units here. -/
structure CostMetrics where
  forward_time : Nat
  backward_time : Nat
  memory_bytes : Nat
deriving DecidableEq, Repr

/-- Modelled from the spec: structural validity of a candidate
`ParallelConfig` for an operator (§4.2: fails when the partitioning is
"indivisible into required shape"): one positive degree per dimension of
the operator's required shape, each degree dividing its dimension. -/
def pcValid (pc : ParallelConfig) (op : OpState) : Bool :=
  let s := requiredShape op
  pc.degrees.length == s.length &&
  (List.range s.length).all (fun i =>
    decide (0 < pc.degrees.getD i 1) &&
    s.getD i 0 % pc.degrees.getD i 1 == 0)

/-- Modelled from the spec: the deterministic cost estimate for an
operator under a candidate partitioning (§3: "cost measurement is a pure
function of (Operator's shape/params, ParallelConfig) → CostMetrics";
§8: memory of a 2-way partition ≈ 2 × per-partition element count ×
element size). Times are per-partition element counts in abstract units. -/
def costModel (op : OpState) (pc : ParallelConfig) : CostMetrics :=
  let per := numElements (requiredShape op) / partitionCount pc
  { forward_time := per
    backward_time := per
    memory_bytes := partitionCount pc * per * elementSize }

/-- Modelled from the spec: the core measurement contract of §4.2:
a `CostMetrics` for a structurally valid candidate, a `MeasurementError`
for an indivisible one. In the C++ interface the error is realized as a
`false` return (see `measure_operator_cost`). -/
def measureCore (op : OpState) (pc : ParallelConfig) :
    Except FFError CostMetrics :=
  if pcValid pc op then Except.ok (costModel op pc)
  else Except.error FFError.measurementError

/-- Modelled from the spec: the simulator (§4.3): it owns a cache of
measured results keyed by (operator identity, candidate config), and no
other state. -/
structure Simulator where
  cache : List ((Nat × ParallelConfig) × CostMetrics)
deriving DecidableEq, Repr

/-- Cache lookup by (operator identity, candidate config) key. -/
def simLookup (sim : Simulator) (k : Nat × ParallelConfig) :
    Option CostMetrics :=
  (sim.cache.find? (fun e => decide (e.1 = k))).map (fun e => e.2)

/-- Record a measured result in the cache unless the key is already
present. -/
def simRecord (sim : Simulator) (k : Nat × ParallelConfig)
    (m : CostMetrics) : Simulator :=
  match simLookup sim k with
  | some _ => sim
  | none => { cache := (k, m) :: sim.cache }

/-- Modelled from the spec: the estimate a measurement call delivers —
`none` when the candidate is structurally invalid, otherwise the cached
representative result for this (operator, config) key when one exists,
else the freshly computed cost (§4.3: "synthetic or cached representative
data"; "results should be cacheable by (operator-identity,
candidate_config) key"). -/
def produceEstimate (sim : Simulator) (op : OpState) (pc : ParallelConfig) :
    Option CostMetrics :=
  match measureCore op pc with
  | Except.ok m => some ((simLookup sim (op.opId, pc)).getD m)
  | Except.error _ => none

/-- `Reshape::measure_operator_cost` as declared in
`src/include/ops/reshape.h`, lines 34–36:
`bool measure_operator_cost(Simulator*, const ParallelConfig&, CostMetrics&) const`.
The mutable simulator and the `CostMetrics&` out-parameter are passed in
and returned; the `const` receiver is returned unchanged. The result tuple
is (returned bool, out-parameter content, simulator, operator). The body is
modelled from the spec: on success the estimate is written into the
out-parameter and recorded in the simulator cache; on failure the call
returns `false` and writes nothing. -/
def measure_operator_cost (op : OpState) (sim : Simulator)
    (pc : ParallelConfig) (cost_metrics : CostMetrics) :
    Bool × CostMetrics × Simulator × OpState :=
  match produceEstimate sim op pc with
  | some m => (true, m, simRecord sim (op.opId, pc) m, op)
  | none => (false, cost_metrics, sim, op)

/-- The `CostMetrics` out-parameter content after a measurement call. -/
def measuredMetrics (op : OpState) (sim : Simulator) (pc : ParallelConfig)
    (cm : CostMetrics) : CostMetrics :=
  (measure_operator_cost op sim pc cm).2.1

/-- The simulator state after a measurement call. -/
def measuredSim (op : OpState) (sim : Simulator) (pc : ParallelConfig)
    (cm : CostMetrics) : Simulator :=
  (measure_operator_cost op sim pc cm).2.2.1

/-- Relative deviation of at most 10 percent between two natural-number
cost figures. -/
def within10pct (a b : Nat) : Prop :=
  10 * (max a b - min a b) ≤ max a b

/-- Componentwise 10-percent tolerance between two `CostMetrics`. -/
def CostMetrics.within10pct (x y : CostMetrics) : Prop :=
  FlexFlow.within10pct x.forward_time y.forward_time ∧
  FlexFlow.within10pct x.backward_time y.backward_time ∧
  FlexFlow.within10pct x.memory_bytes y.memory_bytes

/-- An opaque handle for the model/runtime context (`FFModel` is declared
in `model.h`, which is not among the provided sources; `print_layer`
ignores it). -/
structure FFModel where
  modelId : Nat
deriving DecidableEq, Repr

/-- Outcome of a call that may hit a C `assert`: either a normal return or
an assertion failure. -/
inductive TaskOutcome (α : Type) where
  | ok (a : α)
  | assertionFailed
deriving DecidableEq, Repr

/-- The `Reshape` operator class of `src/include/ops/reshape.h`: it is
constructed from a target shape vector. -/
structure Reshape where
  shape : List Nat
deriving DecidableEq, Repr

/-- `Reshape::print_layer` from `src/include/ops/reshape.h`, line 15:
`void print_layer(const FFModel& model) {assert(0);}` — the body is a
single always-failing assertion. -/
def Reshape.print_layer (_self : Reshape) (_model : FFModel) :
    TaskOutcome Unit :=
  TaskOutcome.assertionFailed

/-! Concrete instances used by the witnesses. -/

/-- A reshape operator from `[8,16]` to `[128]` (the spec's §8 scenario). -/
def exampleOp : OpState :=
  { opId := 0
    config := OperatorConfig.reshape (ReshapeParams.mk [128])
    inputShapes := [[8, 16]]
    lifecycle := LifecycleState.constructed
    opMetas := [] }

/-- A distinct operator (different identity): a concat along axis 1. -/
def otherOp : OpState :=
  { opId := 1
    config := OperatorConfig.params (OperatorParameters.concat (ConcatParams.mk 1))
    inputShapes := [[4, 8], [4, 8]]
    lifecycle := LifecycleState.constructed
    opMetas := [] }

/-- A reshape whose target element count does not match its input:
`[8,16]` (128 elements) into `[100]`. -/
def invalidOp : OpState :=
  { opId := 2
    config := OperatorConfig.reshape (ReshapeParams.mk [100])
    inputShapes := [[8, 16]]
    lifecycle := LifecycleState.constructed
    opMetas := [] }

/-- A 2-way partition of a one-dimensional shape. -/
def pcTwoWay : ParallelConfig := { degrees := [2], deviceIds := [0, 1] }

/-- A 3-way partition: 3 does not divide 128, so it is structurally
invalid for `exampleOp`. -/
def pcThreeWay : ParallelConfig := { degrees := [3], deviceIds := [0, 1, 2] }

/-- A simulator with an empty cache. -/
def emptySim : Simulator := { cache := [] }

/-- An arbitrary initial content for the `CostMetrics` out-parameter. -/
def zeroMetrics : CostMetrics :=
  { forward_time := 0, backward_time := 0, memory_bytes := 0 }

/-! Theorems for the claims. -/

/-- Claim C1, counterexample: the claim asserts the catalog has a variant
for every operator kind the system models, `ReshapeParams` included; but
the repository models a `Reshape` operator (`src/include/ops/reshape.h`)
while the `OperatorParameters` variant of `operator_params.h` has no
`ReshapeParams` alternative. -/
theorem reshape_absent_from_catalog :
    OperatorKind.reshape ∈ modeledOperatorKinds ∧
    OperatorKind.reshape ∉ catalogKinds := by decide

/-- Claim C1 (amended): `OperatorParameters` is a closed tagged union with
exactly one variant for each of the four kinds Conv2D, Linear, Concat and
ElementBinary — and no `ReshapeParams` variant; every value holds exactly
one of the four records and matching is exhaustive over those four kinds. -/
theorem operatorParameters_closed_four_kinds (p : OperatorParameters) :
    p.kind ∈ catalogKinds ∧
    ((∃ q, p = OperatorParameters.conv2d q) ∨
     (∃ q, p = OperatorParameters.linear q) ∨
     (∃ q, p = OperatorParameters.concat q) ∨
     (∃ q, p = OperatorParameters.elementBinary q)) ∧
    catalogKinds.Nodup ∧
    OperatorKind.reshape ∉ catalogKinds := by
  refine ⟨?_, ?_, by decide, by decide⟩
  · cases p <;> simp [OperatorParameters.kind, catalogKinds]
  · cases p with
    | conv2d q => exact Or.inl ⟨q, rfl⟩
    | linear q => exact Or.inr (Or.inl ⟨q, rfl⟩)
    | concat q => exact Or.inr (Or.inr (Or.inl ⟨q, rfl⟩))
    | elementBinary q => exact Or.inr (Or.inr (Or.inr ⟨q, rfl⟩))

/-- Claim C5: output shapes are deterministic functions of params and
input shapes matching the per-kind reference formulas: a valid reshape
preserves the total element count; concat of `[4,8]` and `[4,8]` along
axis 1 yields `[4,16]` while `[4,8]` with `[5,8]` fails `is_valid`;
elementwise add of `[4,8]` and `[4,8]` yields `[4,8]` while `[4,8]` with
`[4,9]` fails `is_valid`. -/
theorem output_shape_reference_formulas (p : ReshapeParams) (input : Shape)
    (h : p.is_valid input = true) :
    numElements (p.output_shape input) = numElements input ∧
    (ConcatParams.mk 1).is_valid [[4, 8], [4, 8]] = true ∧
    (ConcatParams.mk 1).output_shape [[4, 8], [4, 8]] = [4, 16] ∧
    (ConcatParams.mk 1).is_valid [[4, 8], [5, 8]] = false ∧
    (ElementBinaryParams.mk ElementBinaryOpType.add).is_valid
      [[4, 8], [4, 8]] = true ∧
    (ElementBinaryParams.mk ElementBinaryOpType.add).output_shape
      [[4, 8], [4, 8]] = [4, 8] ∧
    (ElementBinaryParams.mk ElementBinaryOpType.add).is_valid
      [[4, 8], [4, 9]] = false := by
  refine ⟨?_, by decide, by decide, by decide, by decide, by decide, by decide⟩
  simp only [ReshapeParams.is_valid, beq_iff_eq] at h
  simp [ReshapeParams.output_shape, h]

/-- Witness for C5 at the spec's §8 scenario: reshape `[8,16]` into
`[128]`. -/
theorem output_shape_reference_formulas_witness :
    numElements ((ReshapeParams.mk [128]).output_shape [8, 16]) =
      numElements [8, 16] ∧
    (ConcatParams.mk 1).is_valid [[4, 8], [4, 8]] = true ∧
    (ConcatParams.mk 1).output_shape [[4, 8], [4, 8]] = [4, 16] ∧
    (ConcatParams.mk 1).is_valid [[4, 8], [5, 8]] = false ∧
    (ElementBinaryParams.mk ElementBinaryOpType.add).is_valid
      [[4, 8], [4, 8]] = true ∧
    (ElementBinaryParams.mk ElementBinaryOpType.add).output_shape
      [[4, 8], [4, 8]] = [4, 8] ∧
    (ElementBinaryParams.mk ElementBinaryOpType.add).is_valid
      [[4, 8], [4, 9]] = false :=
  output_shape_reference_formulas (ReshapeParams.mk [128]) [8, 16] (by decide)

/-- Claim C9: `Reshape::print_layer` is a single always-failing assertion
(`assert(0)`): for every receiver and every `FFModel` it hits the
assertion failure and never returns normally. -/
theorem print_layer_asserts (r : Reshape) (m : FFModel) :
    Reshape.print_layer r m = TaskOutcome.assertionFailed ∧
    ∀ u : Unit, Reshape.print_layer r m ≠ TaskOutcome.ok u := by
  refine ⟨rfl, fun u hu => ?_⟩
  simp [Reshape.print_layer] at hu

/-- Claim C2: for a candidate `ParallelConfig` that is structurally
invalid for the operator (a partitioning that does not evenly divide the
required shape), measurement fails with `MeasurementError`; for a
structurally valid candidate it produces the `CostMetrics` of the cost
model. -/
theorem measure_cost_invalid_config_errors (op : OpState)
    (pc : ParallelConfig) :
    (pcValid pc op = false →
       measureCore op pc = Except.error FFError.measurementError) ∧
    (pcValid pc op = true →
       measureCore op pc = Except.ok (costModel op pc)) := by
  constructor <;> intro h <;> simp [measureCore, h]

/-- Witness for C2: the 3-way partition does not divide `[128]` and fails;
the 2-way partition succeeds. -/
theorem measure_cost_invalid_config_errors_witness :
    measureCore exampleOp pcThreeWay =
      Except.error FFError.measurementError ∧
    measureCore exampleOp pcTwoWay =
      Except.ok (costModel exampleOp pcTwoWay) :=
  ⟨(measure_cost_invalid_config_errors exampleOp pcThreeWay).1 (by decide),
   (measure_cost_invalid_config_errors exampleOp pcTwoWay).2 (by decide)⟩

/-- Claim C10: `measure_operator_cost` reports through a boolean return
and a `CostMetrics&` out-parameter: it returns `true` exactly when an
estimate was produced, in which case the estimate is written into the
out-parameter; on `false` the out-parameter keeps its caller-provided
content. -/
theorem measure_cost_bool_out_param_contract (op : OpState)
    (sim : Simulator) (pc : ParallelConfig) (cm : CostMetrics) :
    ((measure_operator_cost op sim pc cm).1 = true ↔
       ∃ m, produceEstimate sim op pc = some m) ∧
    (∀ m, produceEstimate sim op pc = some m →
       (measure_operator_cost op sim pc cm).2.1 = m) ∧
    ((measure_operator_cost op sim pc cm).1 = false →
       (measure_operator_cost op sim pc cm).2.1 = cm) := by
  unfold measure_operator_cost
  cases hpe : produceEstimate sim op pc <;> simp

/-- Witness for C10: on `exampleOp` a 2-way partition succeeds and writes
the cost-model estimate; a 3-way partition fails and leaves the
out-parameter untouched. -/
theorem measure_cost_bool_out_param_contract_witness :
    (measure_operator_cost exampleOp emptySim pcTwoWay zeroMetrics).1 =
      true ∧
    (measure_operator_cost exampleOp emptySim pcTwoWay zeroMetrics).2.1 =
      costModel exampleOp pcTwoWay ∧
    (measure_operator_cost exampleOp emptySim pcThreeWay zeroMetrics).2.1 =
      zeroMetrics := by
  refine ⟨?_, ?_, ?_⟩
  · exact (measure_cost_bool_out_param_contract exampleOp emptySim pcTwoWay
      zeroMetrics).1.mpr ⟨costModel exampleOp pcTwoWay, by decide⟩
  · exact (measure_cost_bool_out_param_contract exampleOp emptySim pcTwoWay
      zeroMetrics).2.1 (costModel exampleOp pcTwoWay) (by decide)
  · exact (measure_cost_bool_out_param_contract exampleOp emptySim pcThreeWay
      zeroMetrics).2.2 (by decide)

/-- Claim C7: `measure_operator_cost` is `const` on the operator: the
operator state after a measurement call — its `OpMeta` and every other
field — is exactly the state before it, for every simulator, candidate
config and out-parameter content. -/
theorem measure_cost_preserves_op_state (op : OpState) (sim : Simulator)
    (pc : ParallelConfig) (cm : CostMetrics) :
    (measure_operator_cost op sim pc cm).2.2.2 = op ∧
    (measure_operator_cost op sim pc cm).2.2.2.opMetas = op.opMetas ∧
    (measure_operator_cost op sim pc cm).2.2.2.lifecycle = op.lifecycle := by
  unfold measure_operator_cost
  cases produceEstimate sim op pc <;> simp

/-- A successful `initOp` leaves the operator in its ready state. -/
theorem initOp_ok_ready (op op' : OpState) (n : Nat)
    (h : initOp op n = (none, op')) :
    op'.lifecycle = LifecycleState.ready := by
  unfold initOp at h
  split at h
  · simp at h
  · split at h
    · cases h
      rfl
    · simp at h

/-- Claim C3: a second `initialize` without an intervening teardown does
not initialize again: whenever a first call succeeded, any further call on
the resulting operator fails fast with `AlreadyInitializedError` and
leaves the state unchanged. -/
theorem initialize_twice_already_initialized (op op' : OpState)
    (n n' : Nat) (h : initOp op n = (none, op')) :
    initOp op' n' = (some FFError.alreadyInitializedError, op') := by
  have hl : op'.lifecycle = LifecycleState.ready := initOp_ok_ready op op' n h
  unfold initOp
  rw [hl]
  simp

/-- Witness for C3: initializing the example reshape operator twice. -/
theorem initialize_twice_already_initialized_witness :
    initOp (initOp exampleOp 2).2 2 =
      (some FFError.alreadyInitializedError, (initOp exampleOp 2).2) :=
  initialize_twice_already_initialized exampleOp (initOp exampleOp 2).2 2 2
    (by decide)

/-- Claim C4: on an invalid input/param combination (`is_valid` false) a
first `initialize` fails with `ConfigurationError` and the operator state
is returned unchanged — in particular no `OpMeta` is allocated. -/
theorem initialize_invalid_config_error_no_alloc (op : OpState) (n : Nat)
    (hc : op.lifecycle = LifecycleState.constructed)
    (hv : op.config.is_valid op.inputShapes = false) :
    initOp op n = (some FFError.configurationError, op) ∧
    (initOp op n).2.opMetas = op.opMetas := by
  unfold initOp
  simp [hc, hv]

/-- Witness for C4: reshaping 128 elements into a 100-element target fails
validation; `initialize` reports `ConfigurationError` and allocates
nothing. -/
theorem initialize_invalid_config_error_no_alloc_witness :
    (invalidOp.config.is_valid invalidOp.inputShapes = false) ∧
    initOp invalidOp 2 = (some FFError.configurationError, invalidOp) ∧
    (initOp invalidOp 2).2.opMetas = invalidOp.opMetas :=
  ⟨by decide,
   initialize_invalid_config_error_no_alloc invalidOp 2 (by decide) (by decide)⟩

/-- No lifecycle history leaves the destroyed state. -/
theorem accepts_destroyed_nil (h : List Event) (s : LifecycleState)
    (hacc : accepts LifecycleState.destroyed h = some s) : h = [] := by
  cases h with
  | nil => rfl
  | cons e t => cases e <;> simp [accepts, lifeStep] at hacc

/-- A history accepted from the ready state contains no `init` event. -/
theorem accepts_ready_no_init (h : List Event) (s : LifecycleState)
    (hacc : accepts LifecycleState.ready h = some s) :
    h.count Event.init = 0 := by
  induction h generalizing s with
  | nil => rfl
  | cons e t ih =>
    cases e with
    | init => simp [accepts, lifeStep] at hacc
    | forward =>
      simp only [accepts, lifeStep] at hacc
      simp [List.count_cons, ih s hacc]
    | backward =>
      simp only [accepts, lifeStep] at hacc
      simp [List.count_cons, ih s hacc]
    | destroy =>
      simp only [accepts, lifeStep] at hacc
      rw [accepts_destroyed_nil t s hacc]
      rfl

/-- Claim C6: in every reachable lifecycle history — every event sequence
accepted from the constructed state — `init` occurs at most once, every
`forward` or `backward` event is preceded by an `init`, and no transition
at all is enabled after destruction. -/
theorem lifecycle_no_forward_before_init (h : List Event)
    (s : LifecycleState)
    (hacc : accepts LifecycleState.constructed h = some s) :
    h.count Event.init ≤ 1 ∧
    (∀ p e q, h = p ++ e :: q →
       e = Event.forward ∨ e = Event.backward → Event.init ∈ p) ∧
    (∀ e, lifeStep LifecycleState.destroyed e = none) := by
  refine ⟨?_, ?_, fun e => by cases e <;> rfl⟩
  · cases h with
    | nil => simp
    | cons e t =>
      cases e with
      | init =>
        simp only [accepts, lifeStep] at hacc
        simp [List.count_cons, accepts_ready_no_init t s hacc]
      | forward => simp [accepts, lifeStep] at hacc
      | backward => simp [accepts, lifeStep] at hacc
      | destroy =>
        simp only [accepts, lifeStep] at hacc
        rw [accepts_destroyed_nil t s hacc]
        simp
  · intro p e q hpq hfb
    cases h with
    | nil => exact absurd hpq.symm (List.append_ne_nil_of_right_ne_nil p (List.cons_ne_nil e q))
    | cons e0 t =>
      cases e0 with
      | init =>
        cases p with
        | nil =>
          simp only [List.nil_append] at hpq
          cases hpq
          rcases hfb with hf | hb
          · cases hf
          · cases hb
        | cons x p' =>
          have hx : x = Event.init := by
            have := congrArg (fun l => l.head?) hpq
            simpa using this.symm
          rw [hx]
          exact List.mem_cons_self _ _
      | forward => simp [accepts, lifeStep] at hacc
      | backward => simp [accepts, lifeStep] at hacc
      | destroy =>
        simp only [accepts, lifeStep] at hacc
        have ht : t = [] := accepts_destroyed_nil t s hacc
        subst ht
        cases p with
        | nil =>
          simp only [List.nil_append] at hpq
          cases hpq
          rcases hfb with hf | hb
          · cases hf
          · cases hb
        | cons x p' =>
          have : p' ++ e :: q = [] := by
            have := congrArg (fun l => l.tail) hpq
            simpa using this.symm
          exact absurd this (List.append_ne_nil_of_right_ne_nil p' (List.cons_ne_nil e q))

/-- Looking up the key just recorded yields the cached value when one was
already present, else the newly recorded one. -/
theorem simLookup_record_self (sim : Simulator) (k : Nat × ParallelConfig)
    (m : CostMetrics) :
    simLookup (simRecord sim k m) k = some ((simLookup sim k).getD m) := by
  unfold simRecord
  cases hl : simLookup sim k with
  | some v => simp [hl]
  | none =>
    simp only [Option.getD_none]
    simp [simLookup, List.find?]

/-- Recording under one key leaves lookups under any other key unchanged. -/
theorem simLookup_record_ne (sim : Simulator) (k k' : Nat × ParallelConfig)
    (m : CostMetrics) (hne : k' ≠ k) :
    simLookup (simRecord sim k m) k' = simLookup sim k' := by
  unfold simRecord
  cases hl : simLookup sim k with
  | some v => rfl
  | none =>
    simp [simLookup, List.find?, Ne.symm hne]

/-- Unfolding lemma: a measurement call that produces an estimate returns
`true`, writes the estimate and records it. -/
theorem measure_operator_cost_of_some (op : OpState) (sim : Simulator)
    (pc : ParallelConfig) (cm : CostMetrics) (m : CostMetrics)
    (h : produceEstimate sim op pc = some m) :
    measure_operator_cost op sim pc cm =
      (true, m, simRecord sim (op.opId, pc) m, op) := by
  unfold measure_operator_cost
  rw [h]

/-- Unfolding lemma: a measurement call that produces no estimate returns
`false` and changes nothing. -/
theorem measure_operator_cost_of_none (op : OpState) (sim : Simulator)
    (pc : ParallelConfig) (cm : CostMetrics)
    (h : produceEstimate sim op pc = none) :
    measure_operator_cost op sim pc cm = (false, cm, sim, op) := by
  unfold measure_operator_cost
  rw [h]

/-- The 10-percent tolerance is reflexive. -/
theorem within10pct_refl (a : Nat) : within10pct a a := by
  unfold within10pct
  simp

/-- Componentwise reflexivity of the tolerance on `CostMetrics`. -/
theorem costMetrics_within10pct_refl (x : CostMetrics) :
    CostMetrics.within10pct x x :=
  ⟨within10pct_refl _, within10pct_refl _, within10pct_refl _⟩

/-- Witness for C6 on the history init, forward, backward, forward. -/
theorem lifecycle_no_forward_before_init_witness :
    ([Event.init, Event.forward, Event.backward,
      Event.forward].count Event.init ≤ 1) ∧
    (∀ p e q,
       [Event.init, Event.forward, Event.backward, Event.forward] =
         p ++ e :: q →
       e = Event.forward ∨ e = Event.backward → Event.init ∈ p) ∧
    (∀ e, lifeStep LifecycleState.destroyed e = none) :=
  lifecycle_no_forward_before_init
    [Event.init, Event.forward, Event.backward, Event.forward]
    LifecycleState.ready (by decide)

/-- Claim C8: measurement is stable and noninterfering: a second call with
the identical (operator, config) arguments — the simulator threaded from
the first — returns the same `CostMetrics` (hence within every relative
tolerance, 10 percent included), and measuring a different operator first
does not change this operator's estimate. -/
theorem measure_cost_stable_and_noninterfering (opA opB : OpState)
    (sim : Simulator) (pcA pcB : ParallelConfig) (cm₁ cm₂ : CostMetrics)
    (hid : opA.opId ≠ opB.opId)
    (hsucc : (measure_operator_cost opB sim pcB cm₁).1 = true) :
    measuredMetrics opB (measuredSim opB sim pcB cm₁) pcB cm₂ =
      measuredMetrics opB sim pcB cm₁ ∧
    CostMetrics.within10pct
      (measuredMetrics opB (measuredSim opB sim pcB cm₁) pcB cm₂)
      (measuredMetrics opB sim pcB cm₁) ∧
    produceEstimate (measuredSim opA sim pcA cm₁) opB pcB =
      produceEstimate sim opB pcB := by
  have hstable :
      measuredMetrics opB (measuredSim opB sim pcB cm₁) pcB cm₂ =
        measuredMetrics opB sim pcB cm₁ := by
    cases hpe : produceEstimate sim opB pcB with
    | none =>
      rw [measure_operator_cost_of_none opB sim pcB cm₁ hpe] at hsucc
      simp at hsucc
    | some m =>
      have h1 := measure_operator_cost_of_some opB sim pcB cm₁ m hpe
      have hpe2 : produceEstimate (simRecord sim (opB.opId, pcB) m) opB pcB =
          some m := by
        unfold produceEstimate at hpe ⊢
        cases hmc : measureCore opB pcB with
        | error e => rw [hmc] at hpe; simp at hpe
        | ok m0 =>
          rw [hmc] at hpe
          simp only [Option.some.injEq] at hpe
          rw [simLookup_record_self]
          simp only [Option.getD_some, Option.some.injEq]
          cases hl : simLookup sim (opB.opId, pcB) with
          | some v =>
            rw [hl] at hpe
            simp only [Option.getD_some] at hpe ⊢
            exact hpe
          | none => simp
      unfold measuredMetrics measuredSim
      rw [h1]
      simp only
      rw [measure_operator_cost_of_some opB (simRecord sim (opB.opId, pcB) m)
        pcB cm₂ m hpe2]
  refine ⟨hstable, hstable ▸ costMetrics_within10pct_refl _, ?_⟩
  cases hpeA : produceEstimate sim opA pcA with
  | none =>
    unfold measuredSim
    rw [measure_operator_cost_of_none opA sim pcA cm₁ hpeA]
  | some mA =>
    unfold measuredSim
    rw [measure_operator_cost_of_some opA sim pcA cm₁ mA hpeA]
    simp only
    unfold produceEstimate
    cases hmcB : measureCore opB pcB with
    | error e => rfl
    | ok m0 =>
      rw [simLookup_record_ne]
      intro hk
      exact hid (congrArg Prod.fst hk).symm

/-- Witness for C8: the example reshape operator measured twice under the
2-way partition, and measured after a concat operator with a different
identity was measured first. -/
theorem measure_cost_stable_and_noninterfering_witness :
    (measuredMetrics exampleOp (measuredSim exampleOp emptySim pcTwoWay
        zeroMetrics) pcTwoWay zeroMetrics =
      measuredMetrics exampleOp emptySim pcTwoWay zeroMetrics) ∧
    CostMetrics.within10pct
      (measuredMetrics exampleOp (measuredSim exampleOp emptySim pcTwoWay
        zeroMetrics) pcTwoWay zeroMetrics)
      (measuredMetrics exampleOp emptySim pcTwoWay zeroMetrics) ∧
    produceEstimate (measuredSim otherOp emptySim pcTwoWay zeroMetrics)
        exampleOp pcTwoWay =
      produceEstimate emptySim exampleOp pcTwoWay :=
  measure_cost_stable_and_noninterfering otherOp exampleOp emptySim
    pcTwoWay pcTwoWay zeroMetrics zeroMetrics (by decide) (by decide)

end FlexFlow
